import Mathlib

/-!
# Verification of the department / lecture pydantic schema modules

A shallow embedding of `src/models/departments.py` and
`src/models/lectures.py`: two parallel pydantic schema groups
(Base / Create / Update / Read) for a CRUD API.

Input payloads are modelled as flat JSON objects (association lists of
field name to JSON value); validation is modelled field by field exactly
as pydantic performs it (required vs optional fields, null handling,
the `UNIType` pattern constraint, ISO-8601 date / datetime parsing,
canonical UUID parsing, extra fields ignored by the default model
config).  Server-side default factories (`uuid4`, `datetime.utcnow`) are
modelled by an explicit `ServerEnv` holding the process random source /
clock readings made at construction time.
-/

/-- A JSON value, as far as the flat schemas here need: the payloads the
schemas accept are objects whose values are strings or `null`. -/
inductive Json where
  | null : Json
  | str : String → Json
deriving DecidableEq, Repr

/-- A JSON object payload: an association list of field name to value. -/
abbrev Payload := List (String × Json)

/-- Look a field up in a payload (first occurrence wins). -/
def lookupField (p : Payload) (k : String) : Option Json :=
  match p with
  | [] => none
  | (k', v) :: rest => if k' = k then some v else lookupField rest k

/-- The kinds of per-field failure pydantic reports in a
`ValidationError`: missing required field, wrong type, pattern
mismatch on `code`, malformed date / datetime / UUID. -/
inductive FieldError where
  | missing : FieldError
  | notAString : FieldError
  | patternMismatch : FieldError
  | invalidDate : FieldError
  | invalidDatetime : FieldError
  | invalidUuid : FieldError
deriving DecidableEq, Repr

/-- A `ValidationError` enumerates the offending fields and the
constraint each violated. -/
abbrev ValidationError := List (String × FieldError)

/-! ## Character classes of the `UNIType` pattern `^[a-z]{2,3}\d{1,4}$` -/

/-- The character class `[a-z]`: ASCII lowercase letters. -/
def isLowerAlpha (c : Char) : Bool :=
  97 ≤ c.toNat && c.toNat ≤ 122

/-- An ASCII digit `[0-9]`. -/
def isAsciiDigit (c : Char) : Bool :=
  48 ≤ c.toNat && c.toNat ≤ 57

/-- The code-point ranges of the Unicode general category Nd
(decimal digit numbers).  The regex engines pydantic uses (the Rust
regex crate, or Python `re` on `str`) both interpret `\d` as this
category, not as `[0-9]`. -/
def ndRanges : List (Nat × Nat) :=
  [(0x0030, 0x0039), (0x0660, 0x0669), (0x06F0, 0x06F9), (0x07C0, 0x07C9),
   (0x0966, 0x096F), (0x09E6, 0x09EF), (0x0A66, 0x0A6F), (0x0AE6, 0x0AEF),
   (0x0B66, 0x0B6F), (0x0BE6, 0x0BEF), (0x0C66, 0x0C6F), (0x0CE6, 0x0CEF),
   (0x0D66, 0x0D6F), (0x0DE6, 0x0DEF), (0x0E50, 0x0E59), (0x0ED0, 0x0ED9),
   (0x0F20, 0x0F29), (0x1040, 0x1049), (0x1090, 0x1099), (0x17E0, 0x17E9),
   (0x1810, 0x1819), (0x1946, 0x194F), (0x19D0, 0x19D9), (0x1A80, 0x1A89),
   (0x1A90, 0x1A99), (0x1B50, 0x1B59), (0x1BB0, 0x1BB9), (0x1C40, 0x1C49),
   (0x1C50, 0x1C59), (0xA620, 0xA629), (0xA8D0, 0xA8D9), (0xA900, 0xA909),
   (0xA9D0, 0xA9D9), (0xA9F0, 0xA9F9), (0xAA50, 0xAA59), (0xABF0, 0xABF9),
   (0xFF10, 0xFF19), (0x104A0, 0x104A9), (0x10D30, 0x10D39),
   (0x11066, 0x1106F), (0x110F0, 0x110F9), (0x11136, 0x1113F),
   (0x111D0, 0x111D9), (0x112F0, 0x112F9), (0x11450, 0x11459),
   (0x114D0, 0x114D9), (0x11650, 0x11659), (0x116C0, 0x116C9),
   (0x11730, 0x11739), (0x118E0, 0x118E9), (0x11950, 0x11959),
   (0x11C50, 0x11C59), (0x11D50, 0x11D59), (0x11DA0, 0x11DA9),
   (0x11F50, 0x11F59), (0x16A60, 0x16A69), (0x16AC0, 0x16AC9),
   (0x16B50, 0x16B59), (0x1D7CE, 0x1D7FF), (0x1E140, 0x1E149),
   (0x1E2F0, 0x1E2F9), (0x1E4F0, 0x1E4F9), (0x1E950, 0x1E959),
   (0x1FBF0, 0x1FBF9)]

/-- The regex character class `\d` as the engines pydantic uses read it:
any Unicode decimal digit (general category Nd). -/
def isUnicodeDigit (c : Char) : Bool :=
  ndRanges.any fun r => r.1 ≤ c.toNat && c.toNat ≤ r.2

/-- Anchored match of a bounded repetition `cls{lo,hi}` of a
single-character class against a character list: the list has between
`lo` and `hi` characters and each belongs to the class. -/
def clsRep (cls : Char → Bool) (lo hi : Nat) (cs : List Char) : Bool :=
  lo ≤ cs.length && cs.length ≤ hi && cs.all cls

/-- Anchored match of the `UNIType` pattern `^[a-z]{2,3}\d{1,4}$`
(from `src/models/departments.py` and `src/models/lectures.py`):
the string splits into 2-3 ASCII lowercase letters followed by
1-4 Unicode decimal digits. -/
def matchesUNI (s : String) : Bool :=
  (List.range (s.data.length + 1)).any fun i =>
    clsRep isLowerAlpha 2 3 (s.data.take i) &&
      clsRep isUnicodeDigit 1 4 (s.data.drop i)

/-- The pattern exactly as the specification writes it,
`^[a-z]{2,3}[0-9]{1,4}$` — with an ASCII-only digit class.  Stated for
comparison with `matchesUNI`, which embeds the source pattern. -/
def matchesUNISpec (s : String) : Bool :=
  (List.range (s.data.length + 1)).any fun i =>
    clsRep isLowerAlpha 2 3 (s.data.take i) &&
      clsRep isAsciiDigit 1 4 (s.data.drop i)

/-! ## Fixed-width decimal / hexadecimal formatting and parsing

The ISO-8601 serializations of `date` / `datetime` and the canonical
UUID text form are all fixed-width digit fields, so the serializer and
parser are built from one pair of fixed-width primitives. -/

/-- The digit character for a value below 16 (lowercase hex above 9). -/
def digitChar : Nat → Char
  | 0 => '0' | 1 => '1' | 2 => '2' | 3 => '3' | 4 => '4'
  | 5 => '5' | 6 => '6' | 7 => '7' | 8 => '8' | 9 => '9'
  | 10 => 'a' | 11 => 'b' | 12 => 'c' | 13 => 'd' | 14 => 'e' | 15 => 'f'
  | _ => '*'

/-- The value of a digit character (decimal or lowercase hex). -/
def digitVal (c : Char) : Option Nat :=
  if 48 ≤ c.toNat && c.toNat ≤ 57 then some (c.toNat - 48)
  else if 97 ≤ c.toNat && c.toNat ≤ 102 then some (c.toNat - 87)
  else none

/-- Format `n` in base `base` as exactly `w` digits, most significant
first (zero-padded; callers guarantee `n < base ^ w`). -/
def padDigits (base : Nat) : Nat → Nat → List Char
  | 0, _ => []
  | w + 1, n => digitChar (n / base ^ w) :: padDigits base w (n % base ^ w)

/-- Consume exactly `k` digits of base `base` from the front of `cs`,
returning the accumulated value and the remaining characters. -/
def readDigits (base : Nat) : Nat → Nat → List Char → Option (Nat × List Char)
  | 0, acc, cs => some (acc, cs)
  | k + 1, acc, cs =>
    match cs with
    | [] => none
    | c :: cs' =>
      match digitVal c with
      | some v => if v < base then readDigits base k (acc * base + v) cs' else none
      | none => none

/-- Consume one expected literal character. -/
def expectChar (c : Char) : List Char → Option (List Char)
  | [] => none
  | c' :: cs => if c' = c then some cs else none

/-! ## Calendar dates (`datetime.date`) -/

/-- A calendar date, the value a pydantic `date` field holds. -/
structure CalDate where
  year : Nat
  month : Nat
  day : Nat
deriving DecidableEq, Repr

/-- Gregorian leap year. -/
def isLeapYear (y : Nat) : Bool :=
  (y % 4 = 0 && y % 100 ≠ 0) || y % 400 = 0

/-- Days in a month of a given year. -/
def daysInMonth (y m : Nat) : Nat :=
  if m = 2 then (if isLeapYear y then 29 else 28)
  else if m = 4 || m = 6 || m = 9 || m = 11 then 30
  else 31

/-- The dates `datetime.date` can represent (year 1-9999, real
calendar month / day). -/
def CalDate.valid (d : CalDate) : Bool :=
  1 ≤ d.year && d.year ≤ 9999 &&
    1 ≤ d.month && d.month ≤ 12 &&
    1 ≤ d.day && d.day ≤ daysInMonth d.year d.month

/-- ISO-8601 serialization `YYYY-MM-DD`, the form pydantic emits for a
`date` in JSON mode. -/
def CalDate.isoChars (d : CalDate) : List Char :=
  padDigits 10 4 d.year ++ '-' :: (padDigits 10 2 d.month ++ '-' :: padDigits 10 2 d.day)

/-- Parse an ISO-8601 `YYYY-MM-DD` string into a valid date, the way a
pydantic `date` field parses a JSON string. -/
def parseDateChars (cs : List Char) : Option CalDate :=
  match readDigits 10 4 0 cs with
  | none => none
  | some (y, r1) =>
    match expectChar '-' r1 with
    | none => none
    | some r2 =>
      match readDigits 10 2 0 r2 with
      | none => none
      | some (m, r3) =>
        match expectChar '-' r3 with
        | none => none
        | some r4 =>
          match readDigits 10 2 0 r4 with
          | none => none
          | some (d, r5) =>
            match r5 with
            | [] =>
              let date : CalDate := ⟨y, m, d⟩
              if date.valid then some date else none
            | _ :: _ => none

/-! ## Timestamps (`datetime.datetime`) -/

/-- A (naive, UTC) timestamp, the value a pydantic `datetime` field
holds; `datetime.utcnow()` produces one. -/
structure Timestamp where
  year : Nat
  month : Nat
  day : Nat
  hour : Nat
  minute : Nat
  second : Nat
  micro : Nat
deriving DecidableEq, Repr

/-- The timestamps `datetime.datetime` can represent. -/
def Timestamp.valid (t : Timestamp) : Bool :=
  CalDate.valid ⟨t.year, t.month, t.day⟩ &&
    t.hour ≤ 23 && t.minute ≤ 59 && t.second ≤ 59 && t.micro ≤ 999999

/-- ISO-8601 serialization `YYYY-MM-DDTHH:MM:SS[.ffffff]`, the form
pydantic emits for a naive `datetime` in JSON mode (the fractional part
is omitted when the microsecond field is zero). -/
def Timestamp.isoChars (t : Timestamp) : List Char :=
  CalDate.isoChars ⟨t.year, t.month, t.day⟩ ++
    'T' :: (padDigits 10 2 t.hour ++ ':' :: (padDigits 10 2 t.minute ++
      ':' :: (padDigits 10 2 t.second ++
        (if t.micro = 0 then [] else '.' :: padDigits 10 6 t.micro))))

/-- Parse the time-of-day part `HH:MM:SS[.ffffff]`. -/
def parseTimeChars (cs : List Char) : Option (Nat × Nat × Nat × Nat) :=
  match readDigits 10 2 0 cs with
  | none => none
  | some (h, r1) =>
    match expectChar ':' r1 with
    | none => none
    | some r2 =>
      match readDigits 10 2 0 r2 with
      | none => none
      | some (mi, r3) =>
        match expectChar ':' r3 with
        | none => none
        | some r4 =>
          match readDigits 10 2 0 r4 with
          | none => none
          | some (sec, r5) =>
            match r5 with
            | [] => some (h, mi, sec, 0)
            | '.' :: r6 =>
              match readDigits 10 6 0 r6 with
              | some (us, []) => some (h, mi, sec, us)
              | _ => none
            | _ :: _ => none

/-- Parse an ISO-8601 timestamp string into a valid timestamp, the way
a pydantic `datetime` field parses the serialized form. -/
def parseTimestampChars (cs : List Char) : Option Timestamp :=
  match readDigits 10 4 0 cs with
  | none => none
  | some (y, r1) =>
    match expectChar '-' r1 with
    | none => none
    | some r2 =>
      match readDigits 10 2 0 r2 with
      | none => none
      | some (mo, r3) =>
        match expectChar '-' r3 with
        | none => none
        | some r4 =>
          match readDigits 10 2 0 r4 with
          | none => none
          | some (d, r5) =>
            match expectChar 'T' r5 with
            | none => none
            | some r6 =>
              match parseTimeChars r6 with
              | none => none
              | some (h, mi, sec, us) =>
                let t : Timestamp := ⟨y, mo, d, h, mi, sec, us⟩
                if t.valid then some t else none

/-! ## UUIDs (`uuid.UUID`) -/

/-- A UUID in its five canonical segments (`time_low-time_mid-time_hi
-clock_seq-node`); `uuid4()` produces one. -/
structure Uuid where
  timeLow : Nat
  timeMid : Nat
  timeHi : Nat
  clockSeq : Nat
  node : Nat
deriving DecidableEq, Repr

/-- Segment bounds of a 128-bit UUID (8-4-4-4-12 hex digits). -/
def Uuid.valid (u : Uuid) : Bool :=
  u.timeLow < 16 ^ 8 && u.timeMid < 16 ^ 4 && u.timeHi < 16 ^ 4 &&
    u.clockSeq < 16 ^ 4 && u.node < 16 ^ 12

/-- Canonical lowercase-hex text form `xxxxxxxx-xxxx-xxxx-xxxx-xxxxxxxxxxxx`,
the form pydantic emits for a `UUID` in JSON mode. -/
def Uuid.strChars (u : Uuid) : List Char :=
  padDigits 16 8 u.timeLow ++ '-' :: (padDigits 16 4 u.timeMid ++
    '-' :: (padDigits 16 4 u.timeHi ++ '-' :: (padDigits 16 4 u.clockSeq ++
      '-' :: padDigits 16 12 u.node)))

/-- Parse the canonical UUID text form, the way a pydantic `UUID` field
parses the serialized form. -/
def parseUuidChars (cs : List Char) : Option Uuid :=
  match readDigits 16 8 0 cs with
  | none => none
  | some (a, r1) =>
    match expectChar '-' r1 with
    | none => none
    | some r2 =>
      match readDigits 16 4 0 r2 with
      | none => none
      | some (b, r3) =>
        match expectChar '-' r3 with
        | none => none
        | some r4 =>
          match readDigits 16 4 0 r4 with
          | none => none
          | some (c, r5) =>
            match expectChar '-' r5 with
            | none => none
            | some r6 =>
              match readDigits 16 4 0 r6 with
              | none => none
              | some (d, r7) =>
                match expectChar '-' r7 with
                | none => none
                | some r8 =>
                  match readDigits 16 12 0 r8 with
                  | some (e, []) => some ⟨a, b, c, d, e⟩
                  | _ => none

/-! ## Server environment

The Read schema's `id`, `created_at` and `updated_at` fields carry
`default_factory=uuid4` / `default_factory=datetime.utcnow`: when the
field is absent from the input, pydantic calls the factory, which reads
the process random source / clock.  `ServerEnv` records what those
reads return at a given construction. -/

/-- The process state the Read schema's default factories read at
construction time: the UUID `uuid4` would return and the two
`datetime.utcnow()` readings for `created_at` and `updated_at`. -/
structure ServerEnv where
  freshId : Uuid
  createdNow : Timestamp
  updatedNow : Timestamp
deriving DecidableEq, Repr

/-! ## The schema value objects (from `src/models/departments.py` and
`src/models/lectures.py`) -/

/-- `DepartmentBase`: `code` (UNIType), `staff` (str),
`founding_date` (Optional[date]). -/
structure DepartmentBase where
  code : String
  staff : String
  founding_date : Option CalDate
deriving DecidableEq, Repr

/-- `DepartmentCreate(DepartmentBase)`: inherits every field of
`DepartmentBase` and declares none of its own. -/
abbrev DepartmentCreate := DepartmentBase

/-- `DepartmentUpdate`: every field optional, defaulting to `None`. -/
structure DepartmentUpdate where
  code : Option String
  staff : Option String
  founding_date : Option CalDate
deriving DecidableEq, Repr

/-- `DepartmentRead(DepartmentBase)`: the base fields plus
server-defaulted `id`, `created_at`, `updated_at`. -/
structure DepartmentRead where
  code : String
  staff : String
  founding_date : Option CalDate
  id : Uuid
  created_at : Timestamp
  updated_at : Timestamp
deriving DecidableEq, Repr

/-- `LectureBase`: `code` (UNIType), `professor` (str),
`start_date` (Optional[date]). -/
structure LectureBase where
  code : String
  professor : String
  start_date : Option CalDate
deriving DecidableEq, Repr

/-- `LectureCreate(LectureBase)`: inherits every field of `LectureBase`
and declares none of its own. -/
abbrev LectureCreate := LectureBase

/-- `LectureUpdate`: every field optional, defaulting to `None`. -/
structure LectureUpdate where
  code : Option String
  professor : Option String
  start_date : Option CalDate
deriving DecidableEq, Repr

/-- `LectureRead(LectureBase)`: the base fields plus server-defaulted
`id`, `created_at`, `updated_at`. -/
structure LectureRead where
  code : String
  professor : String
  start_date : Option CalDate
  id : Uuid
  created_at : Timestamp
  updated_at : Timestamp
deriving DecidableEq, Repr

/-! ## Per-field validators

Each mirrors how pydantic treats one annotation form appearing in the
source: a required `str`, a required `UNIType`, `Optional[UNIType]`,
`Optional[str]`, `Optional[date]`, and the `UUID` / `datetime` fields
with default factories. -/

/-- Required `str` field: must be present and a string (`None` is not a
string). -/
def vStr : Option Json → Except FieldError String
  | none => .error .missing
  | some .null => .error .notAString
  | some (.str s) => .ok s

/-- Required `UNIType` field: a string matching the pattern. -/
def vUNI : Option Json → Except FieldError String
  | none => .error .missing
  | some .null => .error .notAString
  | some (.str s) => if matchesUNI s then .ok s else .error .patternMismatch

/-- `Optional[UNIType] = None`: absent or `null` gives `None`; a string
must match the pattern. -/
def vOptUNI : Option Json → Except FieldError (Option String)
  | none => .ok none
  | some .null => .ok none
  | some (.str s) => if matchesUNI s then .ok (some s) else .error .patternMismatch

/-- `Optional[str] = None`: absent or `null` gives `None`. -/
def vOptStr : Option Json → Except FieldError (Option String)
  | none => .ok none
  | some .null => .ok none
  | some (.str s) => .ok (some s)

/-- `Optional[date] = None`: absent or `null` gives `None`; a string is
parsed as an ISO-8601 date. -/
def vOptDate : Option Json → Except FieldError (Option CalDate)
  | none => .ok none
  | some .null => .ok none
  | some (.str s) =>
    match parseDateChars s.data with
    | some d => .ok (some d)
    | none => .error .invalidDate

/-- `UUID` field with `default_factory=uuid4`: absent means the factory
value; a supplied string is parsed as a UUID. -/
def vUuidDefault (dflt : Uuid) : Option Json → Except FieldError Uuid
  | none => .ok dflt
  | some .null => .error .invalidUuid
  | some (.str s) =>
    match parseUuidChars s.data with
    | some u => .ok u
    | none => .error .invalidUuid

/-- `datetime` field with `default_factory=datetime.utcnow`: absent
means the factory value; a supplied string is parsed as a timestamp. -/
def vTimestampDefault (dflt : Timestamp) : Option Json → Except FieldError Timestamp
  | none => .ok dflt
  | some .null => .error .invalidDatetime
  | some (.str s) =>
    match parseTimestampChars s.data with
    | some t => .ok t
    | none => .error .invalidDatetime

/-- The contribution of one field's result to a `ValidationError`. -/
def errList (name : String) : Except FieldError α → ValidationError
  | .ok _ => []
  | .error e => [(name, e)]

/-! ## Model validators

Each mirrors pydantic validation of one model class: look up each
declared field (unknown fields are ignored, the default
`model_config`), validate it, and either build the value object or
report every failing field.  The `ServerEnv` argument models the
process clock / random source available at construction time; only the
Read validators (whose fields carry default factories) consult it. -/

/-- Validate a payload against `DepartmentBase`. -/
def validateDepartmentBase (_env : ServerEnv) (p : Payload) :
    Except ValidationError DepartmentBase :=
  let rc := vUNI (lookupField p "code")
  let rs := vStr (lookupField p "staff")
  let rd := vOptDate (lookupField p "founding_date")
  match rc, rs, rd with
  | .ok c, .ok s, .ok d => .ok { code := c, staff := s, founding_date := d }
  | _, _, _ =>
    .error (errList "code" rc ++ errList "staff" rs ++ errList "founding_date" rd)

/-- Validate a payload against `DepartmentCreate` — the class inherits
`DepartmentBase` and declares nothing of its own. -/
def validateDepartmentCreate (env : ServerEnv) (p : Payload) :
    Except ValidationError DepartmentCreate :=
  validateDepartmentBase env p

/-- Validate a payload against `DepartmentUpdate`. -/
def validateDepartmentUpdate (_env : ServerEnv) (p : Payload) :
    Except ValidationError DepartmentUpdate :=
  let rc := vOptUNI (lookupField p "code")
  let rs := vOptStr (lookupField p "staff")
  let rd := vOptDate (lookupField p "founding_date")
  match rc, rs, rd with
  | .ok c, .ok s, .ok d => .ok { code := c, staff := s, founding_date := d }
  | _, _, _ =>
    .error (errList "code" rc ++ errList "staff" rs ++ errList "founding_date" rd)

/-- Validate a payload against `DepartmentRead`; absent `id` /
`created_at` / `updated_at` take the default-factory values read from
`env`. -/
def validateDepartmentRead (env : ServerEnv) (p : Payload) :
    Except ValidationError DepartmentRead :=
  let rc := vUNI (lookupField p "code")
  let rs := vStr (lookupField p "staff")
  let rd := vOptDate (lookupField p "founding_date")
  let ri := vUuidDefault env.freshId (lookupField p "id")
  let rca := vTimestampDefault env.createdNow (lookupField p "created_at")
  let rua := vTimestampDefault env.updatedNow (lookupField p "updated_at")
  match rc, rs, rd, ri, rca, rua with
  | .ok c, .ok s, .ok d, .ok i, .ok ca, .ok ua =>
    .ok { code := c, staff := s, founding_date := d,
          id := i, created_at := ca, updated_at := ua }
  | _, _, _, _, _, _ =>
    .error (errList "code" rc ++ errList "staff" rs ++
      errList "founding_date" rd ++ errList "id" ri ++
      errList "created_at" rca ++ errList "updated_at" rua)

/-- Validate a payload against `LectureBase`. -/
def validateLectureBase (_env : ServerEnv) (p : Payload) :
    Except ValidationError LectureBase :=
  let rc := vUNI (lookupField p "code")
  let rs := vStr (lookupField p "professor")
  let rd := vOptDate (lookupField p "start_date")
  match rc, rs, rd with
  | .ok c, .ok s, .ok d => .ok { code := c, professor := s, start_date := d }
  | _, _, _ =>
    .error (errList "code" rc ++ errList "professor" rs ++ errList "start_date" rd)

/-- Validate a payload against `LectureCreate` — the class inherits
`LectureBase` and declares nothing of its own. -/
def validateLectureCreate (env : ServerEnv) (p : Payload) :
    Except ValidationError LectureCreate :=
  validateLectureBase env p

/-- Validate a payload against `LectureUpdate`. -/
def validateLectureUpdate (_env : ServerEnv) (p : Payload) :
    Except ValidationError LectureUpdate :=
  let rc := vOptUNI (lookupField p "code")
  let rs := vOptStr (lookupField p "professor")
  let rd := vOptDate (lookupField p "start_date")
  match rc, rs, rd with
  | .ok c, .ok s, .ok d => .ok { code := c, professor := s, start_date := d }
  | _, _, _ =>
    .error (errList "code" rc ++ errList "professor" rs ++ errList "start_date" rd)

/-- Validate a payload against `LectureRead`; absent `id` /
`created_at` / `updated_at` take the default-factory values read from
`env`. -/
def validateLectureRead (env : ServerEnv) (p : Payload) :
    Except ValidationError LectureRead :=
  let rc := vUNI (lookupField p "code")
  let rs := vStr (lookupField p "professor")
  let rd := vOptDate (lookupField p "start_date")
  let ri := vUuidDefault env.freshId (lookupField p "id")
  let rca := vTimestampDefault env.createdNow (lookupField p "created_at")
  let rua := vTimestampDefault env.updatedNow (lookupField p "updated_at")
  match rc, rs, rd, ri, rca, rua with
  | .ok c, .ok s, .ok d, .ok i, .ok ca, .ok ua =>
    .ok { code := c, professor := s, start_date := d,
          id := i, created_at := ca, updated_at := ua }
  | _, _, _, _, _, _ =>
    .error (errList "code" rc ++ errList "professor" rs ++
      errList "start_date" rd ++ errList "id" ri ++
      errList "created_at" rca ++ errList "updated_at" rua)

/-! ## JSON serialization of Read objects (`model_dump_json`) -/

/-- Serialize an optional date the way pydantic's JSON mode does:
`None` becomes `null`, a date becomes its ISO string. -/
def dumpOptDate : Option CalDate → Json
  | none => .null
  | some d => .str (String.mk d.isoChars)

/-- `DepartmentRead.model_dump_json`: every field, in declaration order
(inherited fields first). -/
def dumpDepartmentRead (r : DepartmentRead) : Payload :=
  [("code", .str r.code), ("staff", .str r.staff),
   ("founding_date", dumpOptDate r.founding_date),
   ("id", .str (String.mk r.id.strChars)),
   ("created_at", .str (String.mk r.created_at.isoChars)),
   ("updated_at", .str (String.mk r.updated_at.isoChars))]

/-- `LectureRead.model_dump_json`: every field, in declaration order
(inherited fields first). -/
def dumpLectureRead (r : LectureRead) : Payload :=
  [("code", .str r.code), ("professor", .str r.professor),
   ("start_date", dumpOptDate r.start_date),
   ("id", .str (String.mk r.id.strChars)),
   ("created_at", .str (String.mk r.created_at.isoChars)),
   ("updated_at", .str (String.mk r.updated_at.isoChars))]

/-- The Read-object invariant every validated `DepartmentRead`
satisfies: the pattern on `code` and representability of the date,
UUID and timestamp fields. -/
def DepartmentRead.wf (r : DepartmentRead) : Bool :=
  matchesUNI r.code && (r.founding_date.elim true CalDate.valid) &&
    r.id.valid && r.created_at.valid && r.updated_at.valid

/-- The Read-object invariant every validated `LectureRead`
satisfies. -/
def LectureRead.wf (r : LectureRead) : Bool :=
  matchesUNI r.code && (r.start_date.elim true CalDate.valid) &&
    r.id.valid && r.created_at.valid && r.updated_at.valid

/-! ## Round-trip lemmas for the fixed-width primitives -/

lemma digitVal_digitChar (v : Nat) (h : v < 16) : digitVal (digitChar v) = some v := by
  interval_cases v <;> rfl

lemma readDigits_padDigits (base : Nat) (hb : base ≤ 16) (hb1 : 1 ≤ base) :
    ∀ (k n acc : Nat) (rest : List Char), n < base ^ k →
      readDigits base k acc (padDigits base k n ++ rest) =
        some (acc * base ^ k + n, rest) := by
  intro k
  induction k with
  | zero =>
    intro n acc rest hn
    simp only [pow_zero] at hn
    simp [padDigits, readDigits]
    omega
  | succ k ih =>
    intro n acc rest hn
    have hpos : 0 < base ^ k := Nat.pos_pow_of_pos k (by omega)
    have hdiv : n / base ^ k < base := by
      rw [Nat.div_lt_iff_lt_mul hpos]
      calc n < base ^ (k + 1) := hn
        _ = base * base ^ k := by rw [pow_succ]; ring
    have hmod : n % base ^ k < base ^ k := Nat.mod_lt _ hpos
    simp only [padDigits, List.cons_append, readDigits]
    rw [digitVal_digitChar (n / base ^ k) (by omega)]
    simp only [if_pos hdiv]
    rw [ih (n % base ^ k) (acc * base + n / base ^ k) rest hmod]
    have hdm : n / base ^ k * base ^ k + n % base ^ k = n := by
      rw [Nat.mul_comm]
      exact Nat.div_add_mod n (base ^ k)
    have : (acc * base + n / base ^ k) * base ^ k + n % base ^ k =
        acc * base ^ (k + 1) + n := by
      calc (acc * base + n / base ^ k) * base ^ k + n % base ^ k
          = acc * (base ^ k * base) + (n / base ^ k * base ^ k + n % base ^ k) := by
            ring
        _ = acc * base ^ (k + 1) + n := by rw [hdm, ← pow_succ]
    rw [this]

lemma expectChar_cons (c : Char) (rest : List Char) :
    expectChar c (c :: rest) = some rest := by
  simp [expectChar]

lemma daysInMonth_le (y m : Nat) : daysInMonth y m ≤ 31 := by
  unfold daysInMonth
  split_ifs <;> simp

/-- Parsing inverts serialization on valid dates. -/
lemma parseDateChars_isoChars (d : CalDate) (h : d.valid = true) :
    parseDateChars d.isoChars = some d := by
  obtain ⟨y, m, dd⟩ := d
  have hv := h
  simp only [CalDate.valid, Bool.and_eq_true, decide_eq_true_eq] at hv
  have hdm := daysInMonth_le y m
  have h1 := readDigits_padDigits 10 (by omega) (by omega) 4 y 0
    ('-' :: (padDigits 10 2 m ++ '-' :: padDigits 10 2 dd)) (by omega)
  have h2 := readDigits_padDigits 10 (by omega) (by omega) 2 m 0
    ('-' :: padDigits 10 2 dd) (by omega)
  have h3 := readDigits_padDigits 10 (by omega) (by omega) 2 dd 0 [] (by omega)
  rw [List.append_nil] at h3
  unfold CalDate.isoChars parseDateChars
  simp only [h1, h2, h3, expectChar_cons, Nat.zero_mul, Nat.zero_add, h,
    if_true]


/-- Parsing inverts serialization on valid timestamps. -/
lemma parseTimestampChars_isoChars (t : Timestamp) (h : t.valid = true) :
    parseTimestampChars t.isoChars = some t := by
  obtain ⟨y, mo, d, hh, mi, ss, us⟩ := t
  have hv := h
  simp only [Timestamp.valid, Bool.and_eq_true, decide_eq_true_eq] at hv
  have hdate := hv.1.1.1.1
  simp only [CalDate.valid, Bool.and_eq_true, decide_eq_true_eq] at hdate
  have hdm := daysInMonth_le y mo
  by_cases hus : us = 0
  · subst hus
    have hiso : Timestamp.isoChars ⟨y, mo, d, hh, mi, ss, 0⟩ =
        padDigits 10 4 y ++ '-' :: (padDigits 10 2 mo ++ '-' ::
          (padDigits 10 2 d ++ 'T' :: (padDigits 10 2 hh ++ ':' ::
            (padDigits 10 2 mi ++ ':' :: padDigits 10 2 ss)))) := by
      simp [Timestamp.isoChars, CalDate.isoChars]
    have h1 := readDigits_padDigits 10 (by omega) (by omega) 4 y 0
      ('-' :: (padDigits 10 2 mo ++ '-' :: (padDigits 10 2 d ++
        'T' :: (padDigits 10 2 hh ++ ':' :: (padDigits 10 2 mi ++
          ':' :: padDigits 10 2 ss))))) (by omega)
    have h2 := readDigits_padDigits 10 (by omega) (by omega) 2 mo 0
      ('-' :: (padDigits 10 2 d ++ 'T' :: (padDigits 10 2 hh ++
        ':' :: (padDigits 10 2 mi ++ ':' :: padDigits 10 2 ss)))) (by omega)
    have h3 := readDigits_padDigits 10 (by omega) (by omega) 2 d 0
      ('T' :: (padDigits 10 2 hh ++ ':' :: (padDigits 10 2 mi ++
        ':' :: padDigits 10 2 ss))) (by omega)
    have h4 := readDigits_padDigits 10 (by omega) (by omega) 2 hh 0
      (':' :: (padDigits 10 2 mi ++ ':' :: padDigits 10 2 ss)) (by omega)
    have h5 := readDigits_padDigits 10 (by omega) (by omega) 2 mi 0
      (':' :: padDigits 10 2 ss) (by omega)
    have h6 := readDigits_padDigits 10 (by omega) (by omega) 2 ss 0 [] (by omega)
    rw [List.append_nil] at h6
    rw [hiso]
    unfold parseTimestampChars parseTimeChars
    simp only [h1, h2, h3, h4, h5, h6, expectChar_cons, Nat.zero_mul,
      Nat.zero_add, h, if_true]
  · have hiso : Timestamp.isoChars ⟨y, mo, d, hh, mi, ss, us⟩ =
        padDigits 10 4 y ++ '-' :: (padDigits 10 2 mo ++ '-' ::
          (padDigits 10 2 d ++ 'T' :: (padDigits 10 2 hh ++ ':' ::
            (padDigits 10 2 mi ++ ':' :: (padDigits 10 2 ss ++
              '.' :: padDigits 10 6 us))))) := by
      simp [Timestamp.isoChars, CalDate.isoChars, hus]
    have h1 := readDigits_padDigits 10 (by omega) (by omega) 4 y 0
      ('-' :: (padDigits 10 2 mo ++ '-' :: (padDigits 10 2 d ++
        'T' :: (padDigits 10 2 hh ++ ':' :: (padDigits 10 2 mi ++
          ':' :: (padDigits 10 2 ss ++ '.' :: padDigits 10 6 us)))))) (by omega)
    have h2 := readDigits_padDigits 10 (by omega) (by omega) 2 mo 0
      ('-' :: (padDigits 10 2 d ++ 'T' :: (padDigits 10 2 hh ++
        ':' :: (padDigits 10 2 mi ++
          ':' :: (padDigits 10 2 ss ++ '.' :: padDigits 10 6 us))))) (by omega)
    have h3 := readDigits_padDigits 10 (by omega) (by omega) 2 d 0
      ('T' :: (padDigits 10 2 hh ++ ':' :: (padDigits 10 2 mi ++
        ':' :: (padDigits 10 2 ss ++ '.' :: padDigits 10 6 us)))) (by omega)
    have h4 := readDigits_padDigits 10 (by omega) (by omega) 2 hh 0
      (':' :: (padDigits 10 2 mi ++
        ':' :: (padDigits 10 2 ss ++ '.' :: padDigits 10 6 us))) (by omega)
    have h5 := readDigits_padDigits 10 (by omega) (by omega) 2 mi 0
      (':' :: (padDigits 10 2 ss ++ '.' :: padDigits 10 6 us)) (by omega)
    have h6 := readDigits_padDigits 10 (by omega) (by omega) 2 ss 0
      ('.' :: padDigits 10 6 us) (by omega)
    have h7 := readDigits_padDigits 10 (by omega) (by omega) 6 us 0 [] (by omega)
    rw [List.append_nil] at h7
    rw [hiso]
    unfold parseTimestampChars parseTimeChars
    simp only [h1, h2, h3, h4, h5, h6, h7, expectChar_cons, Nat.zero_mul,
      Nat.zero_add, h, if_true]

/-- Parsing inverts serialization on valid UUIDs. -/
lemma parseUuidChars_strChars (u : Uuid) (h : u.valid = true) :
    parseUuidChars u.strChars = some u := by
  obtain ⟨a, b, c, d, e⟩ := u
  have hv := h
  simp only [Uuid.valid, Bool.and_eq_true, decide_eq_true_eq] at hv
  obtain ⟨⟨⟨⟨ha, hb⟩, hc⟩, hd⟩, he⟩ := hv
  have h1 := readDigits_padDigits 16 (by omega) (by omega) 8 a 0
    ('-' :: (padDigits 16 4 b ++ '-' :: (padDigits 16 4 c ++
      '-' :: (padDigits 16 4 d ++ '-' :: padDigits 16 12 e)))) (by omega)
  have h2 := readDigits_padDigits 16 (by omega) (by omega) 4 b 0
    ('-' :: (padDigits 16 4 c ++ '-' :: (padDigits 16 4 d ++
      '-' :: padDigits 16 12 e))) (by omega)
  have h3 := readDigits_padDigits 16 (by omega) (by omega) 4 c 0
    ('-' :: (padDigits 16 4 d ++ '-' :: padDigits 16 12 e)) (by omega)
  have h4 := readDigits_padDigits 16 (by omega) (by omega) 4 d 0
    ('-' :: padDigits 16 12 e) (by omega)
  have h5 := readDigits_padDigits 16 (by omega) (by omega) 12 e 0 [] (by omega)
  rw [List.append_nil] at h5
  unfold Uuid.strChars parseUuidChars
  simp only [h1, h2, h3, h4, h5, expectChar_cons, Nat.zero_mul, Nat.zero_add]

/-! ## Success predicate and sample environment -/

/-- Whether validation succeeded (no `ValidationError` was raised). -/
def exOk : Except ε α → Bool
  | .ok _ => true
  | .error _ => false

/-- A sample server environment, used to instantiate closed statements. -/
def envSample : ServerEnv :=
  { freshId := { timeLow := 0x12345678, timeMid := 0x9abc, timeHi := 0x4def,
                 clockSeq := 0x8123, node := 0x456789abcdef },
    createdNow := ⟨2025, 1, 15, 10, 20, 30, 123456⟩,
    updatedNow := ⟨2025, 1, 16, 12, 0, 0, 0⟩ }

/-! ## The field renaming between the two schema groups -/

/-- The field-name bijection between the Department and the Lecture
schema group: `staff` ↔ `professor`, `founding_date` ↔ `start_date`,
every other name fixed. -/
def renameKey (k : String) : String :=
  if k = "staff" then "professor"
  else if k = "professor" then "staff"
  else if k = "founding_date" then "start_date"
  else if k = "start_date" then "founding_date"
  else k

/-- Rename every key of a payload. -/
def renamePayload (p : Payload) : Payload :=
  p.map fun kv => (renameKey kv.1, kv.2)

/-- Rename the field names inside a `ValidationError`. -/
def renameErr (e : ValidationError) : ValidationError :=
  e.map fun fe => (renameKey fe.1, fe.2)

/-- `DepartmentBase` to `LectureBase`, renaming the fields. -/
def lectureOfDepartment (d : DepartmentBase) : LectureBase :=
  ⟨d.code, d.staff, d.founding_date⟩

/-- `DepartmentUpdate` to `LectureUpdate`, renaming the fields. -/
def lectureOfDepartmentUpdate (d : DepartmentUpdate) : LectureUpdate :=
  ⟨d.code, d.staff, d.founding_date⟩

/-- `DepartmentRead` to `LectureRead`, renaming the fields. -/
def lectureOfDepartmentRead (d : DepartmentRead) : LectureRead :=
  ⟨d.code, d.staff, d.founding_date, d.id, d.created_at, d.updated_at⟩

lemma renameKey_renameKey (k : String) : renameKey (renameKey k) = k := by
  unfold renameKey
  split_ifs <;> simp_all

lemma renameKey_injective {a b : String} (h : renameKey a = renameKey b) :
    a = b := by
  have := congrArg renameKey h
  rwa [renameKey_renameKey, renameKey_renameKey] at this

lemma lookupField_renamePayload (p : Payload) (k : String) :
    lookupField (renamePayload p) (renameKey k) = lookupField p k := by
  induction p with
  | nil => rfl
  | cons kv rest ih =>
    obtain ⟨k', v⟩ := kv
    simp only [renamePayload, List.map_cons, lookupField] at *
    by_cases h : k' = k
    · subst h; simp
    · have hne : ¬ renameKey k' = renameKey k := fun hc => h (renameKey_injective hc)
      simp [h, hne, ih]

lemma lookupField_middle (p₁ p₂ : Payload) (k n : String) (v : Json)
    (h : k ≠ n) :
    lookupField (p₁ ++ (k, v) :: p₂) n = lookupField (p₁ ++ p₂) n := by
  induction p₁ with
  | nil => simp [lookupField, h]
  | cons kv rest ih =>
    obtain ⟨k', v'⟩ := kv
    by_cases hk : k' = n <;> simp [lookupField, hk, ih]

/-! ## ASCII restriction of the digit class -/

lemma isUnicodeDigit_of_ascii (c : Char) (h : c.toNat < 128) :
    isUnicodeDigit c = isAsciiDigit c := by
  rw [Bool.eq_iff_iff]
  unfold isUnicodeDigit ndRanges isAsciiDigit
  simp only [List.any_cons, List.any_nil, Bool.or_eq_true, Bool.and_eq_true,
    decide_eq_true_eq, Bool.or_false]
  omega

lemma list_all_congr {α : Type} (l : List α) (p q : α → Bool)
    (h : ∀ c ∈ l, p c = q c) : l.all p = l.all q := by
  induction l with
  | nil => rfl
  | cons c cs ih =>
    simp only [List.all_cons, h c (List.mem_cons_self c cs),
      ih fun x hx => h x (List.mem_cons_of_mem c hx)]

lemma list_any_congr {α : Type} (l : List α) (p q : α → Bool)
    (h : ∀ c ∈ l, p c = q c) : l.any p = l.any q := by
  induction l with
  | nil => rfl
  | cons c cs ih =>
    simp only [List.any_cons, h c (List.mem_cons_self c cs),
      ih fun x hx => h x (List.mem_cons_of_mem c hx)]

lemma clsRep_congr (p q : Char → Bool) (lo hi : Nat) (cs : List Char)
    (h : ∀ c ∈ cs, p c = q c) : clsRep p lo hi cs = clsRep q lo hi cs := by
  unfold clsRep
  rw [list_all_congr cs p q h]

/-- On strings of ASCII characters the source pattern (`\d`) and the
specification's pattern (`[0-9]`) agree. -/
lemma matchesUNI_eq_spec_of_ascii (s : String)
    (h : ∀ c ∈ s.data, c.toNat < 128) :
    matchesUNI s = matchesUNISpec s := by
  unfold matchesUNI matchesUNISpec
  apply list_any_congr
  intro i _
  rw [clsRep_congr isUnicodeDigit isAsciiDigit 1 4 (s.data.drop i)
    fun c hc => isUnicodeDigit_of_ascii c (h c (List.drop_subset i s.data hc))]

/-! ## The Lecture group as a field-renamed copy of the Department group -/

lemma validateLectureBase_rename (env : ServerEnv) (p : Payload) :
    validateLectureBase env p =
      Except.mapError renameErr
        (Except.map lectureOfDepartment
          (validateDepartmentBase env (renamePayload p))) := by
  have hc : lookupField (renamePayload p) "code" = lookupField p "code" := by
    have := lookupField_renamePayload p "code"
    simpa [renameKey] using this
  have hs : lookupField (renamePayload p) "staff" = lookupField p "professor" := by
    have := lookupField_renamePayload p "professor"
    simpa [renameKey] using this
  have hd : lookupField (renamePayload p) "founding_date" =
      lookupField p "start_date" := by
    have := lookupField_renamePayload p "start_date"
    simpa [renameKey] using this
  simp only [validateLectureBase, validateDepartmentBase, hc, hs, hd]
  cases vUNI (lookupField p "code") <;>
    cases vStr (lookupField p "professor") <;>
      cases vOptDate (lookupField p "start_date") <;>
        simp [Except.map, Except.mapError, errList, renameErr, renameKey,
          lectureOfDepartment]

lemma validateLectureUpdate_rename (env : ServerEnv) (p : Payload) :
    validateLectureUpdate env p =
      Except.mapError renameErr
        (Except.map lectureOfDepartmentUpdate
          (validateDepartmentUpdate env (renamePayload p))) := by
  have hc : lookupField (renamePayload p) "code" = lookupField p "code" := by
    have := lookupField_renamePayload p "code"
    simpa [renameKey] using this
  have hs : lookupField (renamePayload p) "staff" = lookupField p "professor" := by
    have := lookupField_renamePayload p "professor"
    simpa [renameKey] using this
  have hd : lookupField (renamePayload p) "founding_date" =
      lookupField p "start_date" := by
    have := lookupField_renamePayload p "start_date"
    simpa [renameKey] using this
  simp only [validateLectureUpdate, validateDepartmentUpdate, hc, hs, hd]
  cases vOptUNI (lookupField p "code") <;>
    cases vOptStr (lookupField p "professor") <;>
      cases vOptDate (lookupField p "start_date") <;>
        simp [Except.map, Except.mapError, errList, renameErr, renameKey,
          lectureOfDepartmentUpdate]

lemma validateLectureRead_rename (env : ServerEnv) (p : Payload) :
    validateLectureRead env p =
      Except.mapError renameErr
        (Except.map lectureOfDepartmentRead
          (validateDepartmentRead env (renamePayload p))) := by
  have hc : lookupField (renamePayload p) "code" = lookupField p "code" := by
    have := lookupField_renamePayload p "code"
    simpa [renameKey] using this
  have hs : lookupField (renamePayload p) "staff" = lookupField p "professor" := by
    have := lookupField_renamePayload p "professor"
    simpa [renameKey] using this
  have hd : lookupField (renamePayload p) "founding_date" =
      lookupField p "start_date" := by
    have := lookupField_renamePayload p "start_date"
    simpa [renameKey] using this
  have hi : lookupField (renamePayload p) "id" = lookupField p "id" := by
    have := lookupField_renamePayload p "id"
    simpa [renameKey] using this
  have hca : lookupField (renamePayload p) "created_at" =
      lookupField p "created_at" := by
    have := lookupField_renamePayload p "created_at"
    simpa [renameKey] using this
  have hua : lookupField (renamePayload p) "updated_at" =
      lookupField p "updated_at" := by
    have := lookupField_renamePayload p "updated_at"
    simpa [renameKey] using this
  simp only [validateLectureRead, validateDepartmentRead, hc, hs, hd, hi, hca, hua]
  cases vUNI (lookupField p "code") <;>
    cases vStr (lookupField p "professor") <;>
      cases vOptDate (lookupField p "start_date") <;>
        cases vUuidDefault env.freshId (lookupField p "id") <;>
          cases vTimestampDefault env.createdNow (lookupField p "created_at") <;>
            cases vTimestampDefault env.updatedNow (lookupField p "updated_at") <;>
              simp [Except.map, Except.mapError, errList, renameErr, renameKey,
                lectureOfDepartmentRead]

/-! ## Round trip on Read objects -/

lemma validateDepartmentRead_dump (env : ServerEnv) (r : DepartmentRead)
    (h : r.wf = true) :
    validateDepartmentRead env (dumpDepartmentRead r) = .ok r := by
  obtain ⟨code, staff, fd, id, ca, ua⟩ := r
  simp only [DepartmentRead.wf, Bool.and_eq_true] at h
  obtain ⟨⟨⟨⟨hcode, hfd⟩, hid⟩, hca⟩, hua⟩ := h
  have l1 : lookupField (dumpDepartmentRead ⟨code, staff, fd, id, ca, ua⟩)
      "code" = some (Json.str code) := rfl
  have l2 : lookupField (dumpDepartmentRead ⟨code, staff, fd, id, ca, ua⟩)
      "staff" = some (Json.str staff) := rfl
  have l3 : lookupField (dumpDepartmentRead ⟨code, staff, fd, id, ca, ua⟩)
      "founding_date" = some (dumpOptDate fd) := rfl
  have l4 : lookupField (dumpDepartmentRead ⟨code, staff, fd, id, ca, ua⟩)
      "id" = some (Json.str (String.mk id.strChars)) := rfl
  have l5 : lookupField (dumpDepartmentRead ⟨code, staff, fd, id, ca, ua⟩)
      "created_at" = some (Json.str (String.mk ca.isoChars)) := rfl
  have l6 : lookupField (dumpDepartmentRead ⟨code, staff, fd, id, ca, ua⟩)
      "updated_at" = some (Json.str (String.mk ua.isoChars)) := rfl
  simp only [validateDepartmentRead, l1, l2, l3, l4, l5, l6]
  cases fd with
  | none =>
    simp [vUNI, hcode, vStr, vOptDate, dumpOptDate, vUuidDefault,
      vTimestampDefault, parseUuidChars_strChars id hid,
      parseTimestampChars_isoChars ca hca, parseTimestampChars_isoChars ua hua]
  | some d =>
    simp only [Option.elim] at hfd
    simp [vUNI, hcode, vStr, vOptDate, dumpOptDate, vUuidDefault,
      vTimestampDefault, parseDateChars_isoChars d hfd,
      parseUuidChars_strChars id hid,
      parseTimestampChars_isoChars ca hca, parseTimestampChars_isoChars ua hua]

lemma validateLectureRead_dump (env : ServerEnv) (r : LectureRead)
    (h : r.wf = true) :
    validateLectureRead env (dumpLectureRead r) = .ok r := by
  obtain ⟨code, professor, sd, id, ca, ua⟩ := r
  simp only [LectureRead.wf, Bool.and_eq_true] at h
  obtain ⟨⟨⟨⟨hcode, hsd⟩, hid⟩, hca⟩, hua⟩ := h
  have l1 : lookupField (dumpLectureRead ⟨code, professor, sd, id, ca, ua⟩)
      "code" = some (Json.str code) := rfl
  have l2 : lookupField (dumpLectureRead ⟨code, professor, sd, id, ca, ua⟩)
      "professor" = some (Json.str professor) := rfl
  have l3 : lookupField (dumpLectureRead ⟨code, professor, sd, id, ca, ua⟩)
      "start_date" = some (dumpOptDate sd) := rfl
  have l4 : lookupField (dumpLectureRead ⟨code, professor, sd, id, ca, ua⟩)
      "id" = some (Json.str (String.mk id.strChars)) := rfl
  have l5 : lookupField (dumpLectureRead ⟨code, professor, sd, id, ca, ua⟩)
      "created_at" = some (Json.str (String.mk ca.isoChars)) := rfl
  have l6 : lookupField (dumpLectureRead ⟨code, professor, sd, id, ca, ua⟩)
      "updated_at" = some (Json.str (String.mk ua.isoChars)) := rfl
  simp only [validateLectureRead, l1, l2, l3, l4, l5, l6]
  cases sd with
  | none =>
    simp [vUNI, hcode, vStr, vOptDate, dumpOptDate, vUuidDefault,
      vTimestampDefault, parseUuidChars_strChars id hid,
      parseTimestampChars_isoChars ca hca, parseTimestampChars_isoChars ua hua]
  | some d =>
    simp only [Option.elim] at hsd
    simp [vUNI, hcode, vStr, vOptDate, dumpOptDate, vUuidDefault,
      vTimestampDefault, parseDateChars_isoChars d hsd,
      parseUuidChars_strChars id hid,
      parseTimestampChars_isoChars ca hca, parseTimestampChars_isoChars ua hua]

/-! ## Claims -/

/-- A code string accepted by the source pattern but not by the
specification's `[0-9]` pattern: `"ab٣"`, whose third character is the
Arabic-Indic digit three (U+0663), a Unicode decimal digit. -/
def uniCex : String := String.mk ['a', 'b', Char.ofNat 0x663]

/-- C1 (counterexample): constructing a Department Create object with
code `"ab٣"` succeeds, yet `"ab٣"` does not match
`^[a-z]{2,3}[0-9]{1,4}$` — so validation failure is not equivalent to
that pattern failing. -/
theorem c1_counterexample_unicode_digit :
    exOk (validateDepartmentCreate envSample
      [("code", Json.str uniCex), ("staff", Json.str "Ada")]) = true
    ∧ matchesUNISpec uniCex = false := by
  constructor <;> decide

/-- C1 (amended): constructing a Department Create (or Lecture Create)
object with `s` as `code` and a valid `staff` / `professor` succeeds
exactly when `s` matches `^[a-z]{2,3}\d{1,4}$`, where `\d` is any
Unicode decimal digit; on strings of ASCII characters this coincides
with the claimed pattern `^[a-z]{2,3}[0-9]{1,4}$`. -/
theorem c1_code_pattern (env : ServerEnv) (s st : String) :
    (exOk (validateDepartmentCreate env
        [("code", Json.str s), ("staff", Json.str st)]) = matchesUNI s)
    ∧ (exOk (validateLectureCreate env
        [("code", Json.str s), ("professor", Json.str st)]) = matchesUNI s)
    ∧ ((∀ c ∈ s.data, c.toNat < 128) → matchesUNI s = matchesUNISpec s) := by
  refine ⟨?_, ?_, matchesUNI_eq_spec_of_ascii s⟩
  · cases hm : matchesUNI s <;>
      simp [validateDepartmentCreate, validateDepartmentBase, lookupField,
        vUNI, vStr, vOptDate, hm, exOk, errList]
  · cases hm : matchesUNI s <;>
      simp [validateLectureCreate, validateLectureBase, lookupField,
        vUNI, vStr, vOptDate, hm, exOk, errList]

/-- C1 (witness): the amended theorem applied at the ASCII string
`"abc1234"`. -/
theorem c1_witness :
    exOk (validateDepartmentCreate envSample
      [("code", Json.str "abc1234"), ("staff", Json.str "Ada")]) =
        matchesUNI "abc1234"
    ∧ matchesUNI "abc1234" = matchesUNISpec "abc1234" :=
  ⟨(c1_code_pattern envSample "abc1234" "Ada").1,
   (c1_code_pattern envSample "abc1234" "Ada").2.2 (by decide)⟩

/-- C2 (counterexample): a Create payload whose `staff` field is the
empty string validates successfully — `staff: str` carries no
non-emptiness constraint. -/
theorem c2_counterexample_empty_staff :
    validateDepartmentCreate envSample
      [("code", Json.str "ab1"), ("staff", Json.str "")] =
      Except.ok { code := "ab1", staff := "", founding_date := none } := by
  rfl

/-- C2 (amended): "validate create" for departments requires `staff` to
be present (a missing `staff` fails with a `ValidationError` naming the
field), but any string — the empty string included — is accepted. -/
theorem c2_staff_required_any_string (env : ServerEnv) (s : String)
    (p : Payload) (hs : matchesUNI s = true)
    (hp : lookupField p "staff" = none) :
    validateDepartmentCreate env [("code", Json.str s), ("staff", Json.str "")] =
      Except.ok { code := s, staff := "", founding_date := none }
    ∧ ∃ e, validateDepartmentCreate env p = Except.error e ∧
        ("staff", FieldError.missing) ∈ e := by
  constructor
  · simp [validateDepartmentCreate, validateDepartmentBase, lookupField,
      vUNI, vStr, vOptDate, hs]
  · simp only [validateDepartmentCreate, validateDepartmentBase, hp]
    cases vUNI (lookupField p "code") <;>
      cases vOptDate (lookupField p "founding_date") <;>
        simp [vStr, errList]

/-- C2 (witness): the amended theorem applied at code `"ab1"` and the
empty payload. -/
theorem c2_witness :
    validateDepartmentCreate envSample
      [("code", Json.str "ab1"), ("staff", Json.str "")] =
      Except.ok { code := "ab1", staff := "", founding_date := none }
    ∧ ∃ e, validateDepartmentCreate envSample [] = Except.error e ∧
        ("staff", FieldError.missing) ∈ e :=
  c2_staff_required_any_string envSample "ab1" [] (by decide) rfl

/-- C3 (counterexample): a Read object constructed from a payload that
supplies `id`, `created_at` and `updated_at` takes the client-supplied
values — which differ from the server environment's defaults — so
client input does determine those fields. -/
theorem c3_counterexample_client_id :
    validateDepartmentRead envSample
      [("code", Json.str "ab1"), ("staff", Json.str "Ada"),
       ("id", Json.str "99999999-9999-4999-8999-999999999999"),
       ("created_at", Json.str "2001-02-03T04:05:06"),
       ("updated_at", Json.str "2002-03-04T05:06:07")] =
      Except.ok
        { code := "ab1", staff := "Ada", founding_date := none,
          id := ⟨0x99999999, 0x9999, 0x4999, 0x8999, 0x999999999999⟩,
          created_at := ⟨2001, 2, 3, 4, 5, 6, 0⟩,
          updated_at := ⟨2002, 3, 4, 5, 6, 7, 0⟩ }
    ∧ (⟨0x99999999, 0x9999, 0x4999, 0x8999, 0x999999999999⟩ : Uuid) ≠
        envSample.freshId := by
  constructor
  · rfl
  · decide

/-- C3 (amended): every Read instance carries `id`, `created_at` and
`updated_at`; when the client omits them they are populated from the
server's default factories (`uuid4`, `datetime.utcnow`), but when the
client supplies them the supplied values are used — the schema does not
prevent client-provided values. -/
theorem c3_read_defaults (env : ServerEnv) (s st : String) (u : Uuid)
    (ca ua : Timestamp) (hs : matchesUNI s = true) (hu : u.valid = true)
    (hca : ca.valid = true) (hua : ua.valid = true) :
    validateDepartmentRead env [("code", Json.str s), ("staff", Json.str st)] =
      Except.ok
        { code := s, staff := st, founding_date := none,
          id := env.freshId, created_at := env.createdNow,
          updated_at := env.updatedNow }
    ∧ validateDepartmentRead env
        [("code", Json.str s), ("staff", Json.str st),
         ("id", Json.str (String.mk u.strChars)),
         ("created_at", Json.str (String.mk ca.isoChars)),
         ("updated_at", Json.str (String.mk ua.isoChars))] =
      Except.ok
        { code := s, staff := st, founding_date := none,
          id := u, created_at := ca, updated_at := ua } := by
  constructor
  · simp [validateDepartmentRead, lookupField, vUNI, vStr, vOptDate,
      vUuidDefault, vTimestampDefault, hs]
  · simp [validateDepartmentRead, lookupField, vUNI, vStr, vOptDate,
      vUuidDefault, vTimestampDefault, hs, parseUuidChars_strChars u hu,
      parseTimestampChars_isoChars ca hca, parseTimestampChars_isoChars ua hua]

/-- C3 (witness): the amended theorem applied at concrete values. -/
theorem c3_witness :
    validateDepartmentRead envSample
      [("code", Json.str "ab1"), ("staff", Json.str "Ada")] =
      Except.ok
        { code := "ab1", staff := "Ada", founding_date := none,
          id := envSample.freshId, created_at := envSample.createdNow,
          updated_at := envSample.updatedNow } :=
  (c3_read_defaults envSample "ab1" "Ada" ⟨1, 2, 3, 4, 5⟩
    ⟨2001, 2, 3, 4, 5, 6, 0⟩ ⟨2002, 3, 4, 5, 6, 7, 0⟩
    (by decide) (by decide) (by decide) (by decide)).1

/-- C4: the Lecture schema group is the Department schema group under
the field renaming `staff` ↔ `professor`, `founding_date` ↔
`start_date`: validating any payload against a Lecture variant gives
exactly the renamed result of validating the renamed payload against
the corresponding Department variant — successes carry equal field
values under the renaming and failures report the renamed fields. -/
theorem c4_lecture_is_renamed_department (env : ServerEnv) (p : Payload) :
    validateLectureBase env p =
      Except.mapError renameErr (Except.map lectureOfDepartment
        (validateDepartmentBase env (renamePayload p)))
    ∧ validateLectureCreate env p =
      Except.mapError renameErr (Except.map lectureOfDepartment
        (validateDepartmentCreate env (renamePayload p)))
    ∧ validateLectureUpdate env p =
      Except.mapError renameErr (Except.map lectureOfDepartmentUpdate
        (validateDepartmentUpdate env (renamePayload p)))
    ∧ validateLectureRead env p =
      Except.mapError renameErr (Except.map lectureOfDepartmentRead
        (validateDepartmentRead env (renamePayload p))) :=
  ⟨validateLectureBase_rename env p, validateLectureBase_rename env p,
   validateLectureUpdate_rename env p, validateLectureRead_rename env p⟩

/-- C5: an Update payload supplying no fields validates successfully,
for departments and lectures alike, and every field of the resulting
Update object is `None`. -/
theorem c5_empty_update_all_none (env : ServerEnv) :
    validateDepartmentUpdate env [] =
      Except.ok { code := none, staff := none, founding_date := none }
    ∧ validateLectureUpdate env [] =
      Except.ok { code := none, professor := none, start_date := none } :=
  ⟨rfl, rfl⟩

/-- C6: an Update payload's `code` is checked against the same pattern
constraint as in Create: supplying `s` as `code` in an Update succeeds
exactly when a Create with `s` as `code` (and a valid required
`staff` / `professor`) succeeds. -/
theorem c6_update_code_same_constraint (env : ServerEnv) (s : String) :
    exOk (validateDepartmentUpdate env [("code", Json.str s)]) =
      exOk (validateDepartmentCreate env
        [("code", Json.str s), ("staff", Json.str "Ada")])
    ∧ exOk (validateLectureUpdate env [("code", Json.str s)]) =
      exOk (validateLectureCreate env
        [("code", Json.str s), ("professor", Json.str "Ada")]) := by
  constructor <;>
    cases hm : matchesUNI s <;>
      simp [validateDepartmentUpdate, validateDepartmentCreate,
        validateDepartmentBase, validateLectureUpdate, validateLectureCreate,
        validateLectureBase, lookupField, vOptUNI, vOptStr, vUNI, vStr,
        vOptDate, hm, exOk, errList]

/-- C7: the Create schema is identical to the Base schema — the class
inherits Base and declares nothing — so validation of any payload
against Create and against Base gives the same result, for departments
and lectures alike. -/
theorem c7_create_identical_to_base (env : ServerEnv) (p : Payload) :
    validateDepartmentCreate env p = validateDepartmentBase env p
    ∧ validateLectureCreate env p = validateLectureBase env p :=
  ⟨rfl, rfl⟩

/-- C8: serializing a Read object (department or lecture) to JSON and
parsing the result back through the same Read schema returns the
original object, field for field. -/
theorem c8_read_roundtrip (env : ServerEnv) (rd : DepartmentRead)
    (rl : LectureRead) (hd : rd.wf = true) (hl : rl.wf = true) :
    validateDepartmentRead env (dumpDepartmentRead rd) = Except.ok rd
    ∧ validateLectureRead env (dumpLectureRead rl) = Except.ok rl :=
  ⟨validateDepartmentRead_dump env rd hd, validateLectureRead_dump env rl hl⟩

/-- A sample valid `DepartmentRead` object. -/
def dReadSample : DepartmentRead :=
  { code := "ab1", staff := "Ada", founding_date := some ⟨1815, 12, 10⟩,
    id := ⟨1, 2, 3, 4, 5⟩, created_at := ⟨2025, 1, 15, 10, 20, 30, 123456⟩,
    updated_at := ⟨2025, 1, 16, 12, 0, 0, 0⟩ }

/-- A sample valid `LectureRead` object. -/
def lReadSample : LectureRead :=
  { code := "cs4153", professor := "Ada", start_date := none,
    id := ⟨9, 8, 7, 6, 5⟩, created_at := ⟨2024, 2, 29, 23, 59, 59, 999999⟩,
    updated_at := ⟨2024, 3, 1, 0, 0, 0, 0⟩ }

/-- C8 (witness): the round trip at concrete Read objects. -/
theorem c8_witness :
    validateDepartmentRead envSample (dumpDepartmentRead dReadSample) =
      Except.ok dReadSample
    ∧ validateLectureRead envSample (dumpLectureRead lReadSample) =
      Except.ok lReadSample :=
  c8_read_roundtrip envSample dReadSample lReadSample (by decide) (by decide)

/-- C9: validation of Create and Update payloads is deterministic and
stateless — the result is a pure function of the payload alone, and in
particular does not depend on the server environment (process clock /
random source) the way Read-object construction does. -/
theorem c9_validation_deterministic (env1 env2 : ServerEnv) (p : Payload) :
    validateDepartmentCreate env1 p = validateDepartmentCreate env2 p
    ∧ validateDepartmentUpdate env1 p = validateDepartmentUpdate env2 p
    ∧ validateLectureCreate env1 p = validateLectureCreate env2 p
    ∧ validateLectureUpdate env1 p = validateLectureUpdate env2 p :=
  ⟨rfl, rfl, rfl, rfl⟩

/-- C10: every schema variant silently ignores unknown input fields —
inserting a field whose name is not declared in the schema anywhere in
the payload leaves the validation result unchanged (no
`ValidationError`, and the field does not appear in the constructed
object). -/
theorem c10_unknown_fields_ignored (env : ServerEnv) (k : String) (v : Json)
    (p₁ p₂ : Payload) :
    (k ∉ (["code", "staff", "founding_date"] : List String) →
      validateDepartmentBase env (p₁ ++ (k, v) :: p₂) =
        validateDepartmentBase env (p₁ ++ p₂)
      ∧ validateDepartmentCreate env (p₁ ++ (k, v) :: p₂) =
        validateDepartmentCreate env (p₁ ++ p₂)
      ∧ validateDepartmentUpdate env (p₁ ++ (k, v) :: p₂) =
        validateDepartmentUpdate env (p₁ ++ p₂))
    ∧ (k ∉ (["code", "staff", "founding_date", "id", "created_at",
          "updated_at"] : List String) →
      validateDepartmentRead env (p₁ ++ (k, v) :: p₂) =
        validateDepartmentRead env (p₁ ++ p₂))
    ∧ (k ∉ (["code", "professor", "start_date"] : List String) →
      validateLectureBase env (p₁ ++ (k, v) :: p₂) =
        validateLectureBase env (p₁ ++ p₂)
      ∧ validateLectureCreate env (p₁ ++ (k, v) :: p₂) =
        validateLectureCreate env (p₁ ++ p₂)
      ∧ validateLectureUpdate env (p₁ ++ (k, v) :: p₂) =
        validateLectureUpdate env (p₁ ++ p₂))
    ∧ (k ∉ (["code", "professor", "start_date", "id", "created_at",
          "updated_at"] : List String) →
      validateLectureRead env (p₁ ++ (k, v) :: p₂) =
        validateLectureRead env (p₁ ++ p₂)) := by
  refine ⟨fun h => ?_, fun h => ?_, fun h => ?_, fun h => ?_⟩ <;>
    simp only [List.mem_cons, List.mem_singleton, not_or] at h
  · obtain ⟨h1, h2, h3, -⟩ := h
    refine ⟨?_, ?_, ?_⟩ <;>
      simp only [validateDepartmentBase, validateDepartmentCreate,
        validateDepartmentUpdate,
        lookupField_middle p₁ p₂ k _ v h1, lookupField_middle p₁ p₂ k _ v h2,
        lookupField_middle p₁ p₂ k _ v h3]
  · obtain ⟨h1, h2, h3, h4, h5, h6, -⟩ := h
    simp only [validateDepartmentRead,
      lookupField_middle p₁ p₂ k _ v h1, lookupField_middle p₁ p₂ k _ v h2,
      lookupField_middle p₁ p₂ k _ v h3, lookupField_middle p₁ p₂ k _ v h4,
      lookupField_middle p₁ p₂ k _ v h5, lookupField_middle p₁ p₂ k _ v h6]
  · obtain ⟨h1, h2, h3, -⟩ := h
    refine ⟨?_, ?_, ?_⟩ <;>
      simp only [validateLectureBase, validateLectureCreate,
        validateLectureUpdate,
        lookupField_middle p₁ p₂ k _ v h1, lookupField_middle p₁ p₂ k _ v h2,
        lookupField_middle p₁ p₂ k _ v h3]
  · obtain ⟨h1, h2, h3, h4, h5, h6, -⟩ := h
    simp only [validateLectureRead,
      lookupField_middle p₁ p₂ k _ v h1, lookupField_middle p₁ p₂ k _ v h2,
      lookupField_middle p₁ p₂ k _ v h3, lookupField_middle p₁ p₂ k _ v h4,
      lookupField_middle p₁ p₂ k _ v h5, lookupField_middle p₁ p₂ k _ v h6]

/-- C10 (witness): a misspelled field in an Update payload is ignored. -/
theorem c10_witness :
    validateDepartmentUpdate envSample ([] ++ ("typo", Json.str "x") :: []) =
      validateDepartmentUpdate envSample ([] ++ []) :=
  ((c10_unknown_fields_ignored envSample "typo" (Json.str "x") [] []).1
    (by decide)).2.2
